import Mathlib

/-!
Verification development for the payment-checkout gateway in `server.go`.

The HTTP handlers are shallowly embedded as pure Lean functions.  Every
call the handlers make to code outside this repository (the standard
library JSON decoder, the stripe-go client calls `price.Get`,
`session.Get`, `session.New`, `webhook.ValidatePayload` and
`webhook.ConstructEvent`, and the two notifier stubs) is represented
either by a field of an explicit dependency record supplied to the
handler, or, for the signature verifier, by a definition modelled from
the specification.  Each handler returns the HTTP response it wrote
together with a trace of observable effects: lines written to stdout
(`fmt.Println` / `fmt.Printf`), lines written to stderr
(`fmt.Fprintf(os.Stderr, ...)`), lines written through the standard
logger (`log.Printf`), the external calls it performed in program
order, and the Side-Effect Notifier invocations
(`sendConfirmationEmail`, `updatePaymentStatus`).

Go braces inside string literals are written with the escapes \x7b and
\x7d.  Messages recorded in the trace omit the trailing newline that
the Go printing functions append; `http.Error` bodies keep it, since
the body bytes are compared literally.
-/

/-- Environment configuration read through `os.Getenv` in `server.go`:
STRIPE_SECRET_KEY, STRIPE_WEBHOOK_SECRET, PRICE and DOMAIN. -/
structure Env where
  stripeSecretKey : String
  stripeWebhookSecret : String
  price : String
  domain : String
deriving DecidableEq

/-- The flattened payment-result record built at lines 162-167 of
`server.go` (`confirmationEmailData`) and handed to the Side-Effect
Notifier stubs. -/
structure PaymentData where
  paymentIntentId : String
  paymentStatus : String
  paymentAmount : Int
  currency : String
deriving DecidableEq

/-- One line item of `stripe.CheckoutSessionParams` (lines 92-97). -/
structure LineItem where
  quantity : Int
  price : String
deriving DecidableEq

/-- The `stripe.CheckoutSessionParams` value built at lines 88-98. -/
structure SessionParams where
  successURL : String
  cancelURL : String
  mode : String
  lineItems : List LineItem
deriving DecidableEq

/-- Observable effects of a handler run, in program order. -/
inductive Effect where
  | stdoutLine (s : String)
  | stderrLine (s : String)
  | logLine (s : String)
  | callUnmarshalEvent (payload : String)
  | callValidatePayload (payload sigHeader secret : String)
  | callConstructEvent (payload sigHeader secret : String)
  | callUnmarshalSession (raw : String)
  | callPriceGet (id : String)
  | callSessionGet (id : String)
  | callSessionNew (p : SessionParams)
  | sendConfirmationEmail (d : PaymentData)
  | updatePaymentStatus (d : PaymentData)
deriving DecidableEq

/-- An HTTP response as written by a handler: status code, literal body
bytes, and the Location header when `http.Redirect` was used.  A Go
handler that returns without writing anything serves the implicit
status 200 with an empty body; the embedding materialises that case. -/
structure HttpResponse where
  status : Nat
  body : String
  location : Option String
deriving DecidableEq

/-- The fields of `stripe.Event` that `handleWebhook` reads: `ID`,
`Type` and `Data.Raw`. -/
structure StripeEvent where
  id : String
  type : String
  dataRaw : String
deriving DecidableEq

/-- The fields of the `stripe.CheckoutSession` decoded from
`event.Data.Raw` at lines 150-155 that the handler then reads. -/
structure SessionObject where
  paymentIntentId : String
  paymentStatus : String
  amountTotal : Int
  currency : String
deriving DecidableEq

/-- An inbound webhook delivery: the request method, the outcome of
reading the body through `http.MaxBytesReader` (65536-byte cap; an
over-cap or failed read is the `.error` case), and the value of the
`Stripe-Signature` header. -/
structure WebhookRequest where
  method : String
  body : Except String String
  stripeSignature : String

/-- Outcomes of the external calls `handleWebhook` performs:
`json.Unmarshal` into `stripe.Event`, `webhook.ValidatePayload`,
`webhook.ConstructEvent`, and `json.Unmarshal` of `event.Data.Raw`
into `stripe.CheckoutSession`.  Each function returns the decoded
value or the Go error message. -/
structure WebhookDeps where
  unmarshalEvent : String → Except String StripeEvent
  validatePayload : String → String → String → Except String Unit
  constructEvent : String → String → String → Except String StripeEvent
  unmarshalSession : String → Except String SessionObject

/-- A finished handler run: the response written and the effect trace. -/
structure HandlerResult where
  response : HttpResponse
  effects : List Effect
deriving DecidableEq

/-- Shallow embedding of `handleWebhook` (`server.go` lines 107-179),
translated branch by branch:
405 on non-POST; 503 on body-read failure; `json.Unmarshal` of the
payload, 400 on failure; `fmt.Println` of the raw signature header and
of the webhook secret (lines 129-131); `webhook.ValidatePayload`, 400
on failure; `webhook.ConstructEvent`, 400 plus `log.Printf` on
failure; then dispatch on `event.Type`: for
`checkout.session.completed` decode the session object (500 on
failure), print the four payment fields, invoke the notifier stubs
(each stub prints one line) and answer 200 with the JSON success body;
for any other type print the event type and return, which serves the
implicit 200 with an empty body. -/
def handleWebhook (env : Env) (deps : WebhookDeps) (req : WebhookRequest) :
    HandlerResult :=
  if req.method ≠ "POST" then
    ⟨⟨405, "Method Not Allowed\n", none⟩, []⟩
  else
    match req.body with
    | .error e =>
        ⟨⟨503, "", none⟩, [.stderrLine ("Error reading request body: " ++ e)]⟩
    | .ok payload =>
        let eff0 : List Effect := [.callUnmarshalEvent payload]
        match deps.unmarshalEvent payload with
        | .error e =>
            ⟨⟨400, "", none⟩,
              eff0 ++ [.stderrLine
                ("⚠️  Webhook error while parsing basic request. " ++ e)]⟩
        | .ok _event0 =>
            let sig := req.stripeSignature
            let secret := env.stripeWebhookSecret
            let eff1 := eff0 ++
              [.stdoutLine sig, .stdoutLine secret,
               .callValidatePayload payload sig secret]
            match deps.validatePayload payload sig secret with
            | .error e =>
                ⟨⟨400, "", none⟩,
                  eff1 ++ [.stderrLine
                    ("⚠️  Webhook error while validating signature. " ++ e)]⟩
            | .ok _ =>
                let eff2 := eff1 ++ [.callConstructEvent payload sig secret]
                match deps.constructEvent payload sig secret with
                | .error e =>
                    ⟨⟨400, e ++ "\n", none⟩,
                      eff2 ++ [.logLine ("webhook.ConstructEvent: " ++ e)]⟩
                | .ok event =>
                    if event.type = "checkout.session.completed" then
                      let eff3 := eff2 ++
                        [.stdoutLine "Checkout Session completed!",
                         .callUnmarshalSession event.dataRaw]
                      match deps.unmarshalSession event.dataRaw with
                      | .error e =>
                          ⟨⟨500, "", none⟩,
                            eff3 ++ [.stderrLine
                              ("Failed to parse session object: " ++ e)]⟩
                      | .ok s =>
                          let d : PaymentData :=
                            ⟨s.paymentIntentId, s.paymentStatus,
                             s.amountTotal, s.currency⟩
                          ⟨⟨200,
                            "\x7b\"message\":\"Payment success\",\"success\":true\x7d\n",
                            none⟩,
                            eff3 ++
                              [.stdoutLine ("Payment Intent ID: " ++ s.paymentIntentId),
                               .stdoutLine ("Payment Status: " ++ s.paymentStatus),
                               .stdoutLine ("Payment Amount: " ++ toString s.amountTotal),
                               .stdoutLine ("Currency: " ++ s.currency),
                               .sendConfirmationEmail d,
                               .stdoutLine "Sending confirmation email...",
                               .updatePaymentStatus d,
                               .stdoutLine "Updating payment status..."]⟩
                    else
                      ⟨⟨200, "", none⟩,
                        eff2 ++ [.stdoutLine
                          ("Received event of type: " ++ event.type)]⟩

/-- Number of `sendConfirmationEmail` invocations in a trace. -/
def countEmailCalls (l : List Effect) : Nat :=
  l.countP fun e =>
    match e with
    | .sendConfirmationEmail _ => true
    | _ => false

/-- True when a trace contains no Side-Effect Notifier invocation. -/
def notifierFree (l : List Effect) : Bool :=
  l.all fun e =>
    match e with
    | .sendConfirmationEmail _ => false
    | .updatePaymentStatus _ => false
    | _ => true

/-- True when a trace contains no written line at all (stdout, stderr
or the standard logger). -/
def logFree (l : List Effect) : Bool :=
  l.all fun e =>
    match e with
    | .stdoutLine _ => false
    | .stderrLine _ => false
    | .logLine _ => false
    | _ => true

/-- Error kinds of the Go `strconv.NumError` as produced by
`strconv.ParseInt`: ErrSyntax or ErrRange. -/
inductive NumErrorKind where
  | invalidSyntax
  | valueOutOfRange
deriving DecidableEq

/-- Rendering of `err.Error()` for a `strconv.ParseInt` failure, as Go
prints it: `strconv.ParseInt: parsing "<input>": <reason>`.  The input
is quoted; the escaping `strconv.Quote` performs on exotic characters
is elided, which is exact for the plain inputs considered here. -/
def numErrorMessage (input : String) (k : NumErrorKind) : String :=
  "strconv.ParseInt: parsing \"" ++ input ++ "\": " ++
    match k with
    | .invalidSyntax => "invalid syntax"
    | .valueOutOfRange => "value out of range"

/-- Numeric value of a digit sequence, most significant digit first. -/
def digitsToNat (l : List Char) : Nat :=
  l.foldl (fun acc c => acc * 10 + (c.toNat - 48)) 0

/-- Go `strconv.ParseInt(s, 10, 64)`: empty input or a missing digit
after the sign is ErrSyntax, an optional leading plus or minus sign,
base-10 digits only (ErrSyntax on any other rune), and ErrRange
outside the int64 range, whose bounds are minus 2 to the 63rd and
2 to the 63rd minus one.  On ErrRange Go also returns the clamped
value, which `handleCreateCheckoutSession` never reads because it
checks the error first. -/
def parseInt64 (s : String) : Except NumErrorKind Int :=
  match s.data with
  | [] => .error .invalidSyntax
  | c :: rest =>
      let (neg, digits) :=
        if c = '-' then (true, rest)
        else if c = '+' then (false, rest)
        else (false, c :: rest)
      match digits with
      | [] => .error .invalidSyntax
      | _ :: _ =>
          if digits.all Char.isDigit then
            let v : Int :=
              if neg then -(digitsToNat digits : Int) else (digitsToNat digits : Int)
            if v < -9223372036854775808 ∨ (9223372036854775807 : Int) < v then
              .error .valueOutOfRange
            else .ok v
          else .error .invalidSyntax

/-- Go string slicing `s[low:]`.  Slicing panics when `low` exceeds
`len(s)` and otherwise yields the suffix from `low`; `none` is the
panic.  Go indexes bytes; for `low = 0`, the only index the source
uses, byte and character positions coincide and the slice is the
identity, on the empty string included. -/
def goSliceFrom (s : String) (low : Nat) : Option String :=
  if low ≤ s.length then some (s.drop low) else none

/-- The fields of the `stripe.CheckoutSession` returned by
`session.New` that `handleCreateCheckoutSession` reads. -/
structure StripeSessionValue where
  id : String
  url : String
deriving DecidableEq

/-- Outcome of the remote `session.New` call: the created session
(its `ID` and hosted checkout `URL`) or the Go error message. -/
structure CreateSessionDeps where
  sessionNew : SessionParams → Except String StripeSessionValue

/-- A run of `handleCreateCheckoutSession` either panics (a runtime
panic escaping the handler) or writes a response with a trace. -/
inductive CreateOutcome where
  | panicked
  | responded (resp : HttpResponse) (effects : List Effect)
deriving DecidableEq

/-- Shallow embedding of `handleCreateCheckoutSession` (`server.go`
lines 79-106).  The input is the `quantity` form value delivered by
`r.PostFormValue` after `r.ParseForm` (the empty string when the field
is absent).  Line 81 slices the raw value with `[0:]` and parses it
with `strconv.ParseInt(_, 10, 64)`; a parse error answers 500 with the
`http.Error` plain-text body `error parsing quantity <err>`.  The
handler then builds `stripe.CheckoutSessionParams` from DOMAIN and
PRICE and calls `session.New`; a remote failure answers 500 with
`error while creating session <err>`, and success redirects with
status 303 (`http.StatusSeeOther`) to the returned URL.  For a POST
request `http.Redirect` writes no body. -/
def handleCreateCheckoutSession (env : Env) (deps : CreateSessionDeps)
    (quantityForm : String) : CreateOutcome :=
  match goSliceFrom quantityForm 0 with
  | none => .panicked
  | some sliced =>
      match parseInt64 sliced with
      | .error k =>
          .responded
            ⟨500, "error parsing quantity " ++ numErrorMessage sliced k ++ "\n", none⟩
            []
      | .ok quantity =>
          let params : SessionParams :=
            { successURL := env.domain ++ "/html/success.html?session_id=\x7bCHECKOUT_SESSION_ID\x7d"
              cancelURL := env.domain ++ "/canceled.html"
              mode := "payment"
              lineItems := [⟨quantity, env.price⟩] }
          match deps.sessionNew params with
          | .error e =>
              .responded
                ⟨500, "error while creating session " ++ e ++ "\n", none⟩
                [.callSessionNew params]
          | .ok s =>
              .responded ⟨303, "", some s.url⟩ [.callSessionNew params]

/-- The fields of the `stripe.Price` returned by `price.Get` that
`handleConfig` reads; the zero value stands for the zero-valued struct
the stripe-go client leaves behind when the call fails. -/
structure PriceData where
  unitAmount : Int
  currency : String
deriving DecidableEq

/-- The response body `handleConfig` serializes (lines 58-66):
`publicKey`, `unitAmount`, `currency`. -/
structure ConfigResponse where
  publicKey : String
  unitAmount : Int
  currency : String
deriving DecidableEq

/-- Outcome of `handleConfig`: the 405 plain-text rejection, or the
200 JSON response carrying a `ConfigResponse`. -/
inductive ConfigOutcome where
  | methodNotAllowed (resp : HttpResponse)
  | served (body : ConfigResponse)
deriving DecidableEq

/-- Shallow embedding of `handleConfig` (`server.go` lines 49-67).
Non-GET requests get 405.  Otherwise `price.Get(os.Getenv("PRICE"))`
is called and its error is discarded with the blank identifier
(line 54: `p, _ := ...`); on failure the zero-valued price struct is
used.  The response is always the 200 JSON object whose `publicKey`
field is `os.Getenv("STRIPE_SECRET_KEY")` (line 63). -/
def handleConfig (env : Env) (method : String)
    (priceResult : Except String PriceData) : ConfigOutcome × List Effect :=
  if method ≠ "GET" then
    (.methodNotAllowed ⟨405, "Method Not Allowed\n", none⟩, [])
  else
    let p := match priceResult with
      | .ok p => p
      | .error _ => ⟨0, ""⟩
    (.served ⟨env.stripeSecretKey, p.unitAmount, p.currency⟩,
      [.callPriceGet env.price])

/-- Outcome of `handleCheckoutSession`: the 405 rejection, or the 200
JSON response echoing the session fetched from the processor. -/
inductive SessionLookupOutcome where
  | methodNotAllowed (resp : HttpResponse)
  | served (body : StripeSessionValue)
deriving DecidableEq

/-- Shallow embedding of `handleCheckoutSession` (`server.go` lines
69-77).  Non-GET requests get 405.  Otherwise
`session.Get(sessionId)` is called and its error is discarded with
the blank identifier (line 75: `s, _ := ...`); on failure the
zero-valued session struct is serialized.  The response is always the
200 JSON rendering of the session value. -/
def handleCheckoutSession (method : String) (sessionId : String)
    (sessionResult : Except String StripeSessionValue) :
    SessionLookupOutcome × List Effect :=
  if method ≠ "GET" then
    (.methodNotAllowed ⟨405, "Method Not Allowed\n", none⟩, [])
  else
    let s := match sessionResult with
      | .ok s => s
      | .error _ => ⟨"", ""⟩
    (.served s, [.callSessionGet sessionId])

/-- Errors of the Signature Verifier.  Modelled from the spec:
section 4.1 lists Malformed, Expired and Mismatch; the Expired case
depends on the tolerance check, which the spec states is absent in
this source, so it never arises here. -/
inductive SignatureError where
  | malformed
  | mismatch
deriving DecidableEq

/-- Splits a character sequence at every occurrence of the separator;
the separator is consumed and empty segments are kept. -/
def splitOnChar (sep : Char) : List Char → List (List Char)
  | [] => [[]]
  | c :: rest =>
      match splitOnChar sep rest with
      | [] => if c = sep then [[], []] else [[c]]
      | g :: gs => if c = sep then [] :: g :: gs else (c :: g) :: gs

/-- Splits one `key=value` field of the signature header. -/
def splitField (f : String) : Option (String × String) :=
  match splitOnChar '=' f.data with
  | [k, v] => some (⟨k⟩, ⟨v⟩)
  | _ => none

/-- Modelled from the spec: the header format of section 4.1, as read
by `webhook.ValidatePayload` of the stripe-go library, which is not
part of this repository.  The header is a comma-delimited list of
`key=value` pairs that must contain a timestamp field `t` and at
least one signature field `v1`; a header that does not parse into
such fields is malformed.  Returns the timestamp and every `v1`
value. -/
def parseSigHeader (h : String) : Option (String × List String) :=
  match ((splitOnChar ',' h.data).map (fun cs => (⟨cs⟩ : String))).mapM splitField with
  | none => none
  | some kvs =>
      match kvs.find? (fun kv => kv.fst == "t") with
      | none => none
      | some tkv =>
          let v1s := (kvs.filter (fun kv => kv.fst == "v1")).map Prod.snd
          if v1s.isEmpty then none else some (tkv.snd, v1s)

/-- Modelled from the spec: `verify` of section 4.1, the contract of
`webhook.ValidatePayload` from the stripe-go library, which is not
part of this repository.  The expected signature is HMAC-SHA256 over
the string `t.payload` keyed by the secret, lowercase hex; the HMAC
primitive itself is abstracted as the argument `hmac` taking the key
and the message.  Verification succeeds only if the expected
signature equals at least one `v1` value of the header.  The
constant-time comparison of the spec is modelled as plain equality,
and the Expired check is omitted because the spec states it is absent
in this source. -/
def verifySignature (hmac : String → String → String)
    (payload sigHeader secret : String) : Except SignatureError Unit :=
  match parseSigHeader sigHeader with
  | none => .error .malformed
  | some (t, v1s) =>
      if hmac secret (t ++ "." ++ payload) ∈ v1s then .ok ()
      else .error .mismatch

/-- Rendering of a signature error as a Go error message. -/
def signatureErrorMessage (e : SignatureError) : String :=
  match e with
  | .malformed => "webhook has invalid Stripe-Signature header"
  | .mismatch => "webhook had no valid signature"

/-- The `webhook.ValidatePayload` dependency built from the
spec-modelled verifier. -/
def validatePayloadModel (hmac : String → String → String)
    (payload sigHeader secret : String) : Except String Unit :=
  (verifySignature hmac payload sigHeader secret).mapError signatureErrorMessage

/-- The `ErrorResponseMessage` struct of `server.go` lines 41-43. -/
structure ErrorResponseMessage where
  message : String
deriving DecidableEq

/-- The `ErrorResponse` struct of `server.go` lines 45-47. -/
structure ErrorResponse where
  error : ErrorResponseMessage
deriving DecidableEq

/-- JSON string escaping on a character sequence: the quote and the
backslash get a backslash prefix. -/
def jsonEscapeList : List Char → List Char
  | [] => []
  | c :: rest =>
      (if c = '"' then ['\\', '"']
       else if c = '\\' then ['\\', '\\']
       else [c]) ++ jsonEscapeList rest

/-- JSON string escaping as `encoding/json` performs it on the quote
and backslash characters; escaping of control and non-ASCII
characters is elided, exact for the plain message texts considered
here. -/
def jsonEscape (s : String) : String :=
  ⟨jsonEscapeList s.data⟩

/-- The bytes `encoding/json` emits for an `ErrorResponse` value
followed by the newline `json.Encoder.Encode` appends: field names
come from the struct tags `error` and `message`. -/
def encodeErrorResponse (r : ErrorResponse) : String :=
  "\x7b\"error\":\x7b\"message\":\"" ++ jsonEscape r.error.message ++ "\"\x7d\x7d\n"

/-- Shallow embedding of `writeJSONErrorMessage` together with the
`writeJSONError` and `writeJSON` helpers it calls (`server.go` lines
189-216): builds the `ErrorResponse` envelope around the message,
writes the status code, and writes the JSON encoding of the envelope
as the body.  Encoding a value of this fixed shape cannot fail, so
the encode-failure branch of `writeJSON` is not reachable here. -/
def writeJSONErrorMessage (message : String) (code : Nat) : HttpResponse :=
  let resp : ErrorResponse := ⟨⟨message⟩⟩
  ⟨code, encodeErrorResponse resp, none⟩

/-- The error-body shape stated by the spec, section 6: the body is
the JSON object `\x7b"error": \x7b"message": "<text>"\x7d\x7d` (for
some message text) followed by the encoder newline, with JSON string
escaping applied to the text.  Whitespace between JSON tokens is
immaterial to the shape; the canonical spacing-free rendering is
used. -/
def IsErrorShapeBody (body : String) : Prop :=
  ∃ text : String,
    body = "\x7b\"error\":\x7b\"message\":\"" ++ jsonEscape text ++ "\"\x7d\x7d\n"

/-- Concrete environment used by the evaluation theorems. -/
def testEnv : Env :=
  ⟨"sk_test_51", "whsec_test", "price_1ABC", "http://localhost:4242"⟩

/-- A decoded event of type `checkout.session.completed`. -/
def completedEvent : StripeEvent :=
  ⟨"evt_1", "checkout.session.completed", "sessraw"⟩

/-- The session object decoded from the data of `completedEvent`. -/
def testSession : SessionObject := ⟨"pi_1", "paid", 2000, "usd"⟩

/-- External-call outcomes for a delivery that passes every gate and
carries `completedEvent`: the JSON decoder, the signature check and
the event construction all succeed. -/
def depsCompleted : WebhookDeps :=
  { unmarshalEvent := fun _ => .ok completedEvent
    validatePayload := fun _ _ _ => .ok ()
    constructEvent := fun _ _ _ => .ok completedEvent
    unmarshalSession := fun _ => .ok testSession }

/-- External-call outcomes for a delivery whose body is not valid
JSON: the first `json.Unmarshal` fails. -/
def depsBadJson : WebhookDeps :=
  { unmarshalEvent := fun _ =>
      .error "invalid character 'x' looking for beginning of value"
    validatePayload := fun _ _ _ => .ok ()
    constructEvent := fun _ _ _ => .ok completedEvent
    unmarshalSession := fun _ => .ok testSession }

/-- A concrete POST delivery with a readable body. -/
def testReq : WebhookRequest := ⟨"POST", .ok "payload", "t=1,v1=abc"⟩

/-- C1: the claim states that two deliveries of the same verified
`eventId` with type `checkout.session.completed` invoke the
Side-Effect Notifier exactly once in total.  The code keeps no
ProcessedEventLog: evaluating `handleWebhook` on the same delivery
twice shows each run answers 200 and invokes `sendConfirmationEmail`
once, so the two deliveries together invoke it twice, not once. -/
theorem webhook_redelivery_reinvokes_notifier :
    (handleWebhook testEnv depsCompleted testReq).response.status = 200 ∧
    countEmailCalls (handleWebhook testEnv depsCompleted testReq).effects = 1 ∧
    countEmailCalls ((handleWebhook testEnv depsCompleted testReq).effects ++
      (handleWebhook testEnv depsCompleted testReq).effects) = 2 :=
  ⟨rfl, rfl, rfl⟩

/-- C2: the claim states that signature verification writes neither
the shared secret nor the raw signature header to any output stream.
On a delivery that reaches the verification step, the handler prints
both the raw `Stripe-Signature` header and the configured webhook
secret to stdout (`server.go` lines 130-131). -/
theorem webhook_prints_secret_and_signature :
    Effect.stdoutLine testReq.stripeSignature ∈
      (handleWebhook testEnv depsCompleted testReq).effects ∧
    Effect.stdoutLine testEnv.stripeWebhookSecret ∈
      (handleWebhook testEnv depsCompleted testReq).effects := by
  constructor <;> decide

/-- True when a trace contains no `webhook.ValidatePayload` call. -/
def validateCallFree (l : List Effect) : Bool :=
  l.all fun e =>
    match e with
    | .callValidatePayload _ _ _ => false
    | _ => true

/-- C3: the claim states the payload is never JSON-decoded before its
signature has been verified and that a signature failure stops the
delivery before parsing.  In the code the order is reversed: on a
successful delivery the first trace entry is already the
`json.Unmarshal` call, with the signature check only later, and a
delivery with a malformed body is answered 400 by the parse step
while `webhook.ValidatePayload` is never called at all. -/
theorem webhook_parses_before_signature_validation :
    (handleWebhook testEnv depsCompleted testReq).effects.head? =
      some (Effect.callUnmarshalEvent "payload") ∧
    Effect.callValidatePayload "payload" "t=1,v1=abc" "whsec_test" ∈
      (handleWebhook testEnv depsCompleted testReq).effects ∧
    (handleWebhook testEnv depsBadJson testReq).response.status = 400 ∧
    validateCallFree (handleWebhook testEnv depsBadJson testReq).effects = true := by
  refine ⟨rfl, by decide, rfl, rfl⟩

/-- A remote `session.New` that succeeds with a fixed session. -/
def createDepsOk : CreateSessionDeps :=
  ⟨fun _ => .ok ⟨"cs_1", "https://checkout.example/c/cs_1"⟩⟩

/-- C4: the claim states that a quantity below 1, zero included,
fails with an InvalidQuantity validation error before the remote
call.  Evaluating the handler on the form value `0` shows the parse
succeeds, `session.New` is called with quantity 0, and the handler
answers with the 303 redirect: no validation ever happens. -/
theorem create_session_quantity_zero_reaches_remote :
    handleCreateCheckoutSession testEnv createDepsOk "0" =
      .responded ⟨303, "", some "https://checkout.example/c/cs_1"⟩
        [.callSessionNew
          ⟨"http://localhost:4242/html/success.html?session_id=\x7bCHECKOUT_SESSION_ID\x7d",
           "http://localhost:4242/canceled.html", "payment",
           [⟨0, "price_1ABC"⟩]⟩] :=
  rfl

/-- C5 counterexample: the claim states the `[0:]` slice panics on an
empty quantity form value.  Evaluating the handler on the empty form
value yields a plain 500 response, not a panic. -/
theorem empty_quantity_does_not_panic :
    handleCreateCheckoutSession testEnv createDepsOk "" ≠
      CreateOutcome.panicked := by
  decide

/-- C5 amended: slicing with a lower bound of 0 never panics in Go,
on the empty string included; with an empty quantity form value the
slice yields the empty string, its parse fails with ErrSyntax, and
the handler answers 500 with the plain-text parse-error body, for
every environment and every remote dependency. -/
theorem empty_quantity_slice_returns_parse_error :
    ∀ (env : Env) (deps : CreateSessionDeps),
      goSliceFrom "" 0 = some "" ∧
      handleCreateCheckoutSession env deps "" =
        .responded
          ⟨500,
           "error parsing quantity strconv.ParseInt: parsing \"\": invalid syntax\n",
           none⟩
          [] :=
  fun _ _ => ⟨rfl, rfl⟩

/-- The character list of an appended string is the appended character
lists. -/
theorem data_of_append (a b : String) : (a ++ b).data = a.data ++ b.data := by
  cases a
  cases b
  rfl

/-- The plain-text body `http.Error` writes for the quantity parse
failure on the form value `abc`. -/
def badQuantityBody : String :=
  "error parsing quantity strconv.ParseInt: parsing \"abc\": invalid syntax\n"

/-- C6 counterexample: the claim states every error response with a
message body is JSON of the shape error/message.  The request to
`/create-checkout-session` with the form value `abc` produces a 500
error response whose body is the plain text of `http.Error`, which is
not of that shape for any message text: it does not even start with a
brace. -/
theorem create_session_error_body_not_json_shape :
    handleCreateCheckoutSession testEnv createDepsOk "abc" =
      .responded ⟨500, badQuantityBody, none⟩ [] ∧
    ¬ IsErrorShapeBody badQuantityBody := by
  constructor
  · rfl
  · rintro ⟨t, h⟩
    have h2 := congrArg (fun s : String => s.data.head?) h
    simp only [data_of_append, List.append_assoc] at h2
    rw [List.head?_append_of_ne_nil] at h2
    · exact absurd h2 (by decide)
    · decide

/-- C6 amended: the error-body shape of the spec is produced by the
`writeJSONErrorMessage` helper, which builds the error/message JSON
envelope and writes the given status code; the handlers, however,
write their error responses through `http.Error` as plain text, so
the shape holds for the helper rather than for every endpoint error
response. -/
theorem writeJSONErrorMessage_shape :
    ∀ (message : String) (code : Nat),
      (writeJSONErrorMessage message code).status = code ∧
      IsErrorShapeBody (writeJSONErrorMessage message code).body :=
  fun message _ => ⟨rfl, ⟨message, rfl⟩⟩

/-- C7: the claim states no failure path is silently discarded, the
remote price lookup of `/config` and the session lookup of
`/checkout-session` included.  Evaluating both handlers on a failing
remote lookup shows each discards the error with the blank
identifier, writes nothing to any output stream, and serves the 200
JSON response built from the zero-valued struct. -/
theorem remote_lookup_errors_silently_swallowed :
    handleConfig testEnv "GET" (.error "stripe: request failed") =
      (.served ⟨"sk_test_51", 0, ""⟩, [.callPriceGet "price_1ABC"]) ∧
    logFree (handleConfig testEnv "GET" (.error "stripe: request failed")).snd = true ∧
    handleCheckoutSession "GET" "cs_123" (.error "stripe: request failed") =
      (.served ⟨"", ""⟩, [.callSessionGet "cs_123"]) ∧
    logFree (handleCheckoutSession "GET" "cs_123"
      (.error "stripe: request failed")).snd = true :=
  ⟨rfl, rfl, rfl, rfl⟩

/-- With the header parsed and the expected signature absent from the
`v1` values, the spec-modelled validator reports the mismatch. -/
theorem validatePayloadModel_mismatch (hmac : String → String → String)
    (payload sigHeader secret : String) (ts : String) (v1s : List String)
    (hp : parseSigHeader sigHeader = some (ts, v1s))
    (hnm : hmac secret (ts ++ "." ++ payload) ∉ v1s) :
    validatePayloadModel hmac payload sigHeader secret =
      .error "webhook had no valid signature" := by
  unfold validatePayloadModel verifySignature
  rw [hp]
  dsimp only
  rw [if_neg hnm]
  rfl

/-- C8: a POST delivery whose signature header carries only `v1`
values computed with a secret S1 whose signature differs from the one
the configured secret yields is answered 400, and the Side-Effect
Notifier is never invoked: either the body already fails to decode,
or the spec-modelled `webhook.ValidatePayload` reports a mismatch and
the handler stops before dispatch. -/
theorem wrong_secret_webhook_rejected_without_notifier
    (hmac : String → String → String) (env : Env) (deps : WebhookDeps)
    (req : WebhookRequest) (payload ts s1 : String) (v1s : List String)
    (hm : req.method = "POST")
    (hb : req.body = .ok payload)
    (hv : deps.validatePayload = validatePayloadModel hmac)
    (hp : parseSigHeader req.stripeSignature = some (ts, v1s))
    (hsig : ∀ v ∈ v1s, v = hmac s1 (ts ++ "." ++ payload))
    (hne : hmac s1 (ts ++ "." ++ payload) ≠
      hmac env.stripeWebhookSecret (ts ++ "." ++ payload)) :
    (handleWebhook env deps req).response.status = 400 ∧
    notifierFree (handleWebhook env deps req).effects = true := by
  obtain ⟨method, body, sigHeader⟩ := req
  simp only at hm hb hp
  subst hm
  subst hb
  have hnm : hmac env.stripeWebhookSecret (ts ++ "." ++ payload) ∉ v1s :=
    fun hmem => hne (hsig _ hmem).symm
  have hval := validatePayloadModel_mismatch hmac payload sigHeader
    env.stripeWebhookSecret ts v1s hp hnm
  cases hu : deps.unmarshalEvent payload with
  | error e =>
      simp only [handleWebhook, hu]
      exact ⟨by simp, by simp [notifierFree]⟩
  | ok ev0 =>
      simp only [handleWebhook, hu, hv, hval]
      exact ⟨by simp, by simp [notifierFree]⟩

/-- A toy HMAC primitive for the concrete witness: key and message
joined by a dot.  Distinct keys give distinct signatures here, which
is all the witness needs. -/
def hmacToy (key msg : String) : String := key ++ "." ++ msg

/-- Environment whose configured webhook secret is S2. -/
def envSecretS2 : Env := ⟨"sk_test_51", "S2", "price_1ABC", "http://localhost:4242"⟩

/-- Delivery deps whose signature check is the spec-modelled verifier
over the toy HMAC; decoding succeeds. -/
def depsSignedS1 : WebhookDeps :=
  { unmarshalEvent := fun _ => .ok completedEvent
    validatePayload := validatePayloadModel hmacToy
    constructEvent := fun _ _ _ => .ok completedEvent
    unmarshalSession := fun _ => .ok testSession }

/-- A POST delivery of payload `p` signed with the secret S1. -/
def reqSignedS1 : WebhookRequest := ⟨"POST", .ok "p", "t=1,v1=S1.1.p"⟩

/-- Witness for C8 at a concrete delivery signed with S1 and verified
against the configured secret S2. -/
theorem wrong_secret_webhook_rejected_without_notifier_witness :
    (handleWebhook envSecretS2 depsSignedS1 reqSignedS1).response.status = 400 ∧
    notifierFree (handleWebhook envSecretS2 depsSignedS1 reqSignedS1).effects = true :=
  wrong_secret_webhook_rejected_without_notifier hmacToy envSecretS2 depsSignedS1
    reqSignedS1 "p" "1" "S1" ["S1.1.p"] rfl rfl rfl rfl (by decide) (by decide)

/-- C9: a verified delivery whose event type is anything other than
checkout.session.completed is not an error: the handler prints the
event type and returns, which serves the implicit 200 with an empty
body, and the Side-Effect Notifier is never invoked. -/
theorem unknown_event_type_logged_no_side_effect
    (env : Env) (deps : WebhookDeps) (req : WebhookRequest)
    (payload : String) (ev0 ev : StripeEvent)
    (hm : req.method = "POST") (hb : req.body = .ok payload)
    (hu : deps.unmarshalEvent payload = .ok ev0)
    (hval : deps.validatePayload payload req.stripeSignature
      env.stripeWebhookSecret = .ok ())
    (hc : deps.constructEvent payload req.stripeSignature
      env.stripeWebhookSecret = .ok ev)
    (ht : ev.type ≠ "checkout.session.completed") :
    (handleWebhook env deps req).response = ⟨200, "", none⟩ ∧
    Effect.stdoutLine ("Received event of type: " ++ ev.type) ∈
      (handleWebhook env deps req).effects ∧
    notifierFree (handleWebhook env deps req).effects = true := by
  obtain ⟨method, body, sigHeader⟩ := req
  simp only at hm hb hval hc
  subst hm
  subst hb
  simp only [handleWebhook, hu, hval, hc, if_neg ht]
  refine ⟨by simp, by simp, by simp [notifierFree]⟩

/-- A decoded event of a type added by the processor later. -/
def otherEvent : StripeEvent := ⟨"evt_2", "invoice.paid", "raw2"⟩

/-- Delivery deps for a verified event of a non-completed type. -/
def depsOtherType : WebhookDeps :=
  { unmarshalEvent := fun _ => .ok otherEvent
    validatePayload := fun _ _ _ => .ok ()
    constructEvent := fun _ _ _ => .ok otherEvent
    unmarshalSession := fun _ => .ok testSession }

/-- Witness for C9 at a concrete verified delivery of type
invoice.paid. -/
theorem unknown_event_type_logged_no_side_effect_witness :
    (handleWebhook testEnv depsOtherType testReq).response = ⟨200, "", none⟩ ∧
    Effect.stdoutLine ("Received event of type: " ++ otherEvent.type) ∈
      (handleWebhook testEnv depsOtherType testReq).effects ∧
    notifierFree (handleWebhook testEnv depsOtherType testReq).effects = true :=
  unknown_event_type_logged_no_side_effect testEnv depsOtherType testReq
    "payload" otherEvent otherEvent rfl rfl rfl rfl rfl (by decide)

/-- C10: every GET request to `/config` is served a JSON object whose
`publicKey` field is the configured STRIPE_SECRET_KEY value itself
(`server.go` line 63), whatever the price lookup returned: the payment
secret key is disclosed to any client of the endpoint. -/
theorem config_serves_secret_key_as_public_key :
    ∀ (env : Env) (pr : Except String PriceData),
      ∃ c : ConfigResponse,
        (handleConfig env "GET" pr).fst = ConfigOutcome.served c ∧
        c.publicKey = env.stripeSecretKey := by
  intro env pr
  cases pr with
  | ok p => exact ⟨⟨env.stripeSecretKey, p.unitAmount, p.currency⟩, by simp [handleConfig], rfl⟩
  | error e => exact ⟨⟨env.stripeSecretKey, 0, ""⟩, by simp [handleConfig], rfl⟩
